import Mathlib

/-!
Verification development for the x402 Tyk middleware
(`src/middleware/x402_payment.js`).

The middleware is a Tyk JSVM script.  We shallow-embed it as pure Lean
functions over a small model of JavaScript values (`JVal`): JSON-parsed
data, header values and route configuration are all `JVal`s, and the JS
operations the script uses (truthiness, `===`, `||`, property access,
`[0]` indexing, `.length`, `parseInt`, `JSON.stringify`, string
coercion) are modelled explicitly.  The two host functions the script
calls — `TykMakeHttpRequest` and `JSON.parse` — are oracles supplied in
an `Env`; either may throw, modelled with `Except String`.  Property
access on `null`/`undefined` throws (`JVal.getE`), as in JavaScript.
Every outbound facilitator HTTP call is recorded in a `FacCall` log so
that "the facilitator is (not) called" is a provable statement.
-/

/-- Model of a JavaScript value as seen by the middleware: the JSON
universe plus `undefined` and `NaN` (which `parseInt` can produce). -/
inductive JVal where
  | undefined : JVal
  | null : JVal
  | nan : JVal
  | bool : Bool → JVal
  | num : Int → JVal
  | str : String → JVal
  | arr : List JVal → JVal
  | obj : List (String × JVal) → JVal

/-- First-match field lookup in an object's field list; absent fields
read as `undefined`, as in JavaScript. -/
def lookupField : List (String × JVal) → String → JVal
  | [], _ => .undefined
  | (k, v) :: rest, key => if k = key then v else lookupField rest key

/-- JavaScript property access `v[key]` for the non-throwing cases:
object lookup, everything non-object reads as `undefined`. -/
def JVal.get (v : JVal) (key : String) : JVal :=
  match v with
  | .obj fs => lookupField fs key
  | _ => .undefined

/-- JavaScript property access that throws a `TypeError` on `null` and
`undefined` receivers, as the real `paymentProof.transaction`,
`response.Code`, `verifyBody.isValid` and `settleBody.signature`
accesses do. -/
def JVal.getE (v : JVal) (key : String) : Except String JVal :=
  match v with
  | .undefined => .error ("TypeError: cannot read property " ++ key ++ " of undefined")
  | .null => .error ("TypeError: cannot read property " ++ key ++ " of null")
  | v => .ok (v.get key)

/-- JavaScript truthiness. -/
def JVal.truthy : JVal → Bool
  | .undefined => false
  | .null => false
  | .nan => false
  | .bool b => b
  | .num n => n != 0
  | .str s => s != ""
  | .arr _ => true
  | .obj _ => true

/-- JavaScript strict equality `===` restricted to the comparisons the
middleware performs (primitives against literals).  `NaN === x` is
false, and object/array comparisons are reference comparisons which are
conservatively false here (the script never compares two aliased
objects). -/
def JVal.seq : JVal → JVal → Bool
  | .undefined, .undefined => true
  | .null, .null => true
  | .bool a, .bool b => a == b
  | .num a, .num b => a == b
  | .str a, .str b => a == b
  | _, _ => false

/-- JavaScript `a || b`. -/
def jsOr (a b : JVal) : JVal := if a.truthy then a else b

/-- `Array.isArray`. -/
def JVal.isArr : JVal → Bool
  | .arr _ => true
  | _ => false

/-- JavaScript `v.length`: defined for strings and arrays, `undefined`
otherwise. -/
def jsLength : JVal → JVal
  | .str s => .num s.length
  | .arr xs => .num xs.length
  | _ => .undefined

/-- JavaScript indexing `v[i]`: array element, single-character string,
or `undefined`. -/
def jsIndex (v : JVal) (i : Nat) : JVal :=
  match v with
  | .arr xs => (xs.get? i).getD .undefined
  | .str s => ((s.toList.get? i).map (fun c => JVal.str (String.singleton c))).getD .undefined
  | _ => .undefined

/-- JSON string escaping for the characters relevant here. -/
def jsonEscapeChar (c : Char) : String :=
  if c = '"' then "\\\""
  else if c = '\\' then "\\\\"
  else if c = '\n' then "\\n"
  else if c = '\t' then "\\t"
  else if c = '\r' then "\\r"
  else String.singleton c

/-- Quote a string as a JSON string literal. -/
def jsonQuote (s : String) : String :=
  "\"" ++ String.join (s.toList.map jsonEscapeChar) ++ "\""

mutual
/-- `JSON.stringify`.  Object fields holding `undefined` are skipped and
`NaN` serializes as `null`, as in JavaScript. -/
def JVal.stringify : JVal → String
  | .undefined => "null"
  | .null => "null"
  | .nan => "null"
  | .bool b => if b then "true" else "false"
  | .num n => toString n
  | .str s => jsonQuote s
  | .arr xs => "[" ++ stringifyElems xs ++ "]"
  | .obj fs => "\x7b" ++ stringifyFields fs ++ "\x7d"

/-- Comma-joined serializations of array elements. -/
def stringifyElems : List JVal → String
  | [] => ""
  | [x] => x.stringify
  | x :: y :: rest => x.stringify ++ "," ++ stringifyElems (y :: rest)

/-- Comma-joined serializations of object fields, skipping `undefined`. -/
def stringifyFields : List (String × JVal) → String
  | [] => ""
  | (_, .undefined) :: rest => stringifyFields rest
  | (k, v) :: rest =>
    match stringifyFields rest with
    | "" => jsonQuote k ++ ":" ++ v.stringify
    | tail => jsonQuote k ++ ":" ++ v.stringify ++ "," ++ tail
end

mutual
/-- JavaScript `String(v)` coercion. -/
def JVal.toJSString : JVal → String
  | .undefined => "undefined"
  | .null => "null"
  | .nan => "NaN"
  | .bool b => if b then "true" else "false"
  | .num n => toString n
  | .str s => s
  | .arr xs => jsArrElems xs
  | .obj _ => "[object Object]"

/-- `Array.prototype.toString`: elements joined by commas, with `null`
and `undefined` rendered empty. -/
def jsArrElems : List JVal → String
  | [] => ""
  | [.undefined] => ""
  | [.null] => ""
  | [x] => x.toJSString
  | .undefined :: y :: rest => "," ++ jsArrElems (y :: rest)
  | .null :: y :: rest => "," ++ jsArrElems (y :: rest)
  | x :: y :: rest => x.toJSString ++ "," ++ jsArrElems (y :: rest)
end

/-- Accumulate a base-10 digit list into a natural number. -/
def digitsToNat (l : List Char) : Nat :=
  l.foldl (fun n c => 10 * n + (c.toNat - 48)) 0

/-- JavaScript `parseInt` as used by the middleware (base 10): coerce to
string, skip whitespace, optional sign, leading digits; `NaN` when no
digit is found. -/
def parseIntJS (v : JVal) : JVal :=
  let s := v.toJSString.toList.dropWhile Char.isWhitespace
  let sgn : Int := match s with
    | '-' :: _ => -1
    | _ => 1
  let rest := match s with
    | '-' :: r => r
    | '+' :: r => r
    | r => r
  let ds := rest.takeWhile Char.isDigit
  if ds.isEmpty then .nan else .num (sgn * (digitsToNat ds : Int))

/-! ## The middleware's request/response model -/

/-- `request.ReturnOverrides`: the client-visible response override slots
the middleware can write.  `none` means the slot was never written. -/
structure Overrides where
  ResponseCode : Option Int
  ResponseError : Option String
  ResponseHeaders : Option (List (String × String))
deriving DecidableEq, Repr

/-- The Tyk `request` object as used by the script: URL, method, inbound
headers (`Headers`), outbound header mutations (`SetHeaders`) and the
response overrides. -/
structure Request where
  URL : String
  Method : String
  Headers : List (String × JVal)
  SetHeaders : List (String × JVal)
  ReturnOverrides : Overrides

/-- The Tyk `session` object; the middleware reads only `config_data`. -/
structure Session where
  config_data : JVal

/-- `request.Headers[k]`; absent headers read as `undefined`. -/
def Request.getHeader (req : Request) (k : String) : JVal :=
  lookupField req.Headers k

/-- JavaScript object-property assignment for the `SetHeaders` map:
replace in place or append. -/
def setAssoc : List (String × JVal) → String → JVal → List (String × JVal)
  | [], k, v => [(k, v)]
  | (k2, v2) :: rest, k, v =>
    if k2 = k then (k, v) :: rest else (k2, v2) :: setAssoc rest k v

/-- One recorded outbound HTTP call to the facilitator: endpoint
(`Resource`) and serialized payload (`Body`). -/
structure FacCall where
  endpoint : String
  body : String
deriving DecidableEq, Repr

/-- The two host functions the script calls, as oracles.  `tykHttp`
models `TykMakeHttpRequest` (argument: the serialized request object;
result: the response value, or a thrown fault); `parse` models
`JSON.parse` (result: parsed value, or the thrown SyntaxError's text). -/
structure Env where
  tykHttp : String → Except String JVal
  parse : String → Except String JVal

/-- `JSON.parse(v)` for an arbitrary JS value: JavaScript coerces the
argument to a string first. -/
def jsParseVal (env : Env) (v : JVal) : Except String JVal :=
  env.parse v.toJSString

/-- `var FACILITATOR_URL = "https://facilitator.emfi.dev";` -/
def FACILITATOR_URL : String := "https://facilitator.emfi.dev"

/-- `var MIDDLEWARE_VERSION = "1.0.0";` -/
def MIDDLEWARE_VERSION : String := "1.0.0"

/-- The classified result object `callFacilitator` builds:
`{success:true, data}` or `{success:false, error}`. -/
inductive FacResult where
  | ok : JVal → FacResult
  | err : String → FacResult

/-- The request object `callFacilitator` serializes and hands to
`TykMakeHttpRequest`. -/
def facHttpRequest (endpoint : String) (requestBody : String) : JVal :=
  .obj [("Method", .str "POST"),
        ("Body", .str requestBody),
        ("Headers", .obj [("Content-Type", .str "application/json")]),
        ("Domain", .str FACILITATOR_URL),
        ("Resource", .str endpoint)]

/-- `callFacilitator(endpoint, payload)`: serialize the payload, POST it
to the facilitator, and classify the outcome — no/empty response,
undecodable response, missing `Code`, non-200 `Code`, undecodable
`Body`, or success.  The second component records the outbound call
(made as soon as `TykMakeHttpRequest` is invoked, even if it throws);
the `Except` layer carries a thrown host fault out to the caller. -/
def callFacilitator (env : Env) (endpoint : String) (payload : JVal) :
    Except String FacResult × List FacCall :=
  let requestBody := payload.stringify
  let call : FacCall := ⟨endpoint, requestBody⟩
  match env.tykHttp (facHttpRequest endpoint requestBody).stringify with
  | .error e => (.error e, [call])
  | .ok responseString =>
    if !responseString.truthy then
      (.ok (.err "Failed to communicate with facilitator (no response)"), [call])
    else
      match jsParseVal env responseString with
      | .error e => (.ok (.err ("Invalid response from facilitator: " ++ e)), [call])
      | .ok response =>
        match response.getE "Code" with
        | .error e => (.error e, [call])
        | .ok code =>
          if !code.truthy then
            (.ok (.err "Invalid response format from facilitator"), [call])
          else if !code.seq (.num 200) then
            (.ok (.err ("Facilitator returned status " ++ code.toJSString ++ ": "
                        ++ (response.get "Body").toJSString)), [call])
          else
            match jsParseVal env (response.get "Body") with
            | .error e =>
              (.ok (.err ("Failed to parse facilitator response body: " ++ e)), [call])
            | .ok responseBody => (.ok (.ok responseBody), [call])

/-! ## Response builders -/

/-- The 402 "payment required" body built by `requestPayment`. -/
def requestPaymentInfo (url : String) (cfg : JVal) : JVal :=
  .obj [("error", .str "Payment Required"),
        ("message", .str "This resource requires a valid X402 payment"),
        ("x402Version", .num 1),
        ("paymentRequirements", .obj [
          ("scheme", jsOr (cfg.get "scheme") (.str "exact")),
          ("network", jsOr (cfg.get "network") (.str "solana-devnet")),
          ("description", jsOr (cfg.get "description") (.str ("Access to " ++ url))),
          ("payTo", cfg.get "payTo"),
          ("asset", cfg.get "asset"),
          ("maxAmountRequired", jsOr (cfg.get "maxAmountRequired") (.str "1000000")),
          ("maxTimeoutSeconds", .num 60)]),
        ("instructions", .obj [
          ("step1", .str "Sign a transaction with your wallet"),
          ("step2", .str "Include the signed payment object in the X-Payment-x402 header"),
          ("headerExample", .str "X-Payment-x402: \x7b x402PaymentObject \x7d")])]

/-- `requestPayment(request, x402Config)`: 402 with payment
requirements. -/
def requestPayment (req : Request) (cfg : JVal) : Request :=
  { req with ReturnOverrides :=
      { ResponseCode := some 402,
        ResponseError := some (requestPaymentInfo req.URL cfg).stringify,
        ResponseHeaders := some [
          ("Content-Type", "application/json"),
          ("X-Payment-Required", "x402"),
          ("X-Payment-Status", "required"),
          ("X-Payment-Protocol-Version", MIDDLEWARE_VERSION)] } }

/-- `rejectPayment(request, reason)`: 402 with the rejection reason. -/
def rejectPayment (req : Request) (reason : JVal) : Request :=
  { req with ReturnOverrides :=
      { ResponseCode := some 402,
        ResponseError := some (JVal.stringify
          (.obj [("error", .str "Payment Invalid"), ("message", reason)])),
        ResponseHeaders := some [
          ("Content-Type", "application/json"),
          ("X-Payment-Status", "invalid")] } }

/-- The generic 500 body written by `verifyPayment`'s catch-all. -/
def internalErrorBody : JVal :=
  .obj [("error", .str "Internal Server Error"),
        ("message", .str "Payment verification failed due to internal error")]

/-- The catch-all branch of `verifyPayment`: 500 with the generic body,
independent of the caught fault. -/
def internalErrorResponse (req : Request) : Request :=
  { req with ReturnOverrides :=
      { ResponseCode := some 500,
        ResponseError := some internalErrorBody.stringify,
        ResponseHeaders := some [("Content-Type", "application/json")] } }

/-! ## Verification phase -/

/-- Step 1 of `verifyPayment`:
`request.Headers["X-Payment-x402"] || request.Headers["X-Payment-X402"]`. -/
def proofHeaderOf (req : Request) : JVal :=
  jsOr (req.getHeader "X-Payment-x402") (req.getHeader "X-Payment-X402")

/-- Step 3 normalization:
`Array.isArray(paymentHeader) ? paymentHeader[0] : paymentHeader`. -/
def rawPaymentOf (h : JVal) : JVal :=
  if h.isArr then jsIndex h 0 else h

/-- The `/v1/verify` payload built from the route config and the proof's
transaction value. -/
def verifyRequestPayload (cfg txv : JVal) : JVal :=
  .obj [("paymentPayload", .obj [
          ("network", cfg.get "network"),
          ("transaction", txv)]),
        ("paymentRequirements", .obj [
          ("network", cfg.get "network"),
          ("kind", .str "spl-token"),
          ("recipient", cfg.get "payTo"),
          ("feePayer", cfg.get "feePayer"),
          ("amount", parseIntJS (cfg.get "maxAmountRequired")),
          ("token", cfg.get "asset")])]

/-- Step 6 of `verifyPayment`: attach the carried-metadata headers. -/
def setVerifiedHeaders (req : Request) (cfg verifyBody : JVal) : Request :=
  let h1 := setAssoc req.SetHeaders "X-Payment-Valid" (.str "true")
  let h2 := setAssoc h1 "X-Payment-Network" (cfg.get "network")
  let h3 := setAssoc h2 "X-Payment-Tx" (jsOr (verifyBody.get "transaction") (.str "unknown"))
  let h4 := setAssoc h3 "X-Payment-Payer" (jsOr (verifyBody.get "payer") (.str "anonymous"))
  let h5 := setAssoc h4 "X-Payment-Amount" (cfg.get "maxAmountRequired")
  let h6 := setAssoc h5 "X-Payment-Token" (cfg.get "asset")
  let h7 := setAssoc h6 "X-Payment-Recipient" (cfg.get "payTo")
  { req with SetHeaders := h7 }

/-- The body of `verifyPayment`'s `try` block.  An `Except.error` is a
fault thrown inside the block (a host fault from `TykMakeHttpRequest`,
or a `TypeError` from a property access on `null`); the call log is
kept even when a fault is thrown. -/
def verifyPaymentBody (env : Env) (req : Request) (cfg : JVal) :
    Except String Request × List FacCall :=
  let paymentHeader := proofHeaderOf req
  if !paymentHeader.truthy || (jsLength paymentHeader).seq (.num 0) then
    (.ok (requestPayment req cfg), [])
  else
    match jsParseVal env (rawPaymentOf paymentHeader) with
    | .error _ => (.ok (rejectPayment req (.str "Invalid JSON in X-Payment-x402 header")), [])
    | .ok paymentProof =>
      match paymentProof.getE "transaction" with
      | .error e => (.error e, [])
      | .ok tx =>
        let txv := jsOr (jsOr tx (paymentProof.get "payload")) (.str "")
        match callFacilitator env "/v1/verify" (verifyRequestPayload cfg txv) with
        | (.error e, calls) => (.error e, calls)
        | (.ok (.err msg), calls) => (.ok (rejectPayment req (.str msg)), calls)
        | (.ok (.ok verifyBody), calls) =>
          match verifyBody.getE "isValid" with
          | .error e => (.error e, calls)
          | .ok isValid =>
            if !isValid.truthy then
              (.ok (rejectPayment req (jsOr (jsOr (verifyBody.get "error")
                     (verifyBody.get "message")) (.str "Payment not valid"))), calls)
            else
              (.ok (setVerifiedHeaders req cfg verifyBody), calls)

/-- `verifyPayment(request, x402Config)`: the `try` body with its
catch-all converting any thrown fault into the generic 500. -/
def verifyPayment (env : Env) (req : Request) (cfg : JVal) :
    Request × List FacCall :=
  match verifyPaymentBody env req cfg with
  | (.ok r, calls) => (r, calls)
  | (.error _, calls) => (internalErrorResponse req, calls)

/-- `handleVerification(request, session)`: resolve the route's config;
unconfigured or non-x402 routes pass through untouched. -/
def handleVerification (env : Env) (req : Request) (session : Session) :
    Request × List FacCall :=
  let config := jsOr session.config_data (.obj [])
  let routeConfig :=
    if (config.get "paths").truthy then (config.get "paths").get req.URL else .null
  if !routeConfig.truthy || !(routeConfig.get req.Method.toLower).truthy then
    (req, [])
  else if !((routeConfig.get req.Method.toLower).get "x402").truthy then
    (req, [])
  else
    verifyPayment env req ((routeConfig.get req.Method.toLower).get "x402")

/-! ## Settlement phase -/

/-- `settlePayment(transaction, network, recipient, amount, token)`:
POST `/v1/settle`; the classification result is only logged, but a
thrown host fault propagates (to `handleSettlement`'s catch). -/
def settlePayment (env : Env) (transaction network recipient amount token : JVal) :
    Except String Unit × List FacCall :=
  match callFacilitator env "/v1/settle"
      (.obj [("network", network), ("transaction", transaction),
             ("recipient", recipient), ("amount", parseIntJS amount),
             ("token", token)]) with
  | (.error e, calls) => (.error e, calls)
  | (.ok (.err _), calls) => (.ok (), calls)
  | (.ok (.ok settleBody), calls) =>
    match settleBody.getE "signature" with
    | .error e => (.error e, calls)
    | .ok _ => (.ok (), calls)

/-- `getHeaderValue(header)`: `null` for falsy, first element for
arrays, the value itself otherwise. -/
def getHeaderValue (header : JVal) : JVal :=
  if !header.truthy then .null
  else if header.isArr then jsIndex header 0 else header

/-- `handleSettlement(request)`: read the carried metadata headers, skip
when the transaction is missing or `"unknown"`, otherwise settle inside
a catch that absorbs any failure.  The request (and with it every
response override) is returned unchanged in every branch. -/
def handleSettlement (env : Env) (req : Request) : Request × List FacCall :=
  let transaction := getHeaderValue (req.getHeader "X-Payment-Tx")
  let network := getHeaderValue (req.getHeader "X-Payment-Network")
  let amount := getHeaderValue (req.getHeader "X-Payment-Amount")
  let token := getHeaderValue (req.getHeader "X-Payment-Token")
  let recipient := getHeaderValue (req.getHeader "X-Payment-Recipient")
  if !transaction.truthy || transaction.seq (.str "unknown") then
    (req, [])
  else
    (req, (settlePayment env transaction network recipient amount token).2)

/-! ## Top-level dispatch -/

/-- The `NewProcessRequest` handler: settlement phase when the
`X-Payment-Valid` header's first element is strictly `"true"`,
verification phase otherwise. -/
def NewProcessRequest (env : Env) (req : Request) (session : Session) :
    Request × List FacCall :=
  let paymentValid := req.getHeader "X-Payment-Valid"
  if paymentValid.truthy && (jsIndex paymentValid 0).seq (.str "true") then
    handleSettlement env req
  else
    handleVerification env req session

/-! ## Concrete fixtures -/

/-- A typical route payment requirement, as in the repository's README
configuration examples. -/
def cfgFix : JVal :=
  .obj [("network", .str "solana-devnet"), ("payTo", .str "PAYADDR"),
        ("asset", .str "USDC"), ("maxAmountRequired", .str "100"),
        ("feePayer", .str "FEEP")]

/-- A parsed client payment proof carrying a transaction signature. -/
def proofObj : JVal := .obj [("transaction", .str "SIG123")]

/-- A facilitator verify body: valid payment with transaction and payer. -/
def facBodyValid : JVal :=
  .obj [("isValid", .bool true), ("transaction", .str "SIG123"),
        ("payer", .str "PAYER1")]

/-- A facilitator verify body: invalid payment with a reason. -/
def facBodyInvalid : JVal :=
  .obj [("isValid", .bool false), ("error", .str "expired")]

/-- `JSON.parse` oracle used by the fixture environments: marker strings
parse to fixed structures, everything else throws a SyntaxError. -/
def parseFix (s : String) : Except String JVal :=
  if s = "PROOF" then .ok proofObj
  else if s = "RESP_OK" then .ok (.obj [("Code", .num 200), ("Body", .str "BODY_VALID")])
  else if s = "RESP_INV" then .ok (.obj [("Code", .num 200), ("Body", .str "BODY_INVALID")])
  else if s = "BODY_VALID" then .ok facBodyValid
  else if s = "BODY_INVALID" then .ok facBodyInvalid
  else .error "SyntaxError: Unexpected token o in JSON at position 0"

/-- Facilitator unreachable: `TykMakeHttpRequest` yields an empty
response (classified as "no response"). -/
def envNoResp : Env := ⟨fun _ => .ok (.str ""), parseFix⟩

/-- Facilitator accepts the payment. -/
def envValid : Env := ⟨fun _ => .ok (.str "RESP_OK"), parseFix⟩

/-- Facilitator rejects the payment. -/
def envInvalid : Env := ⟨fun _ => .ok (.str "RESP_INV"), parseFix⟩

/-- The host HTTP call throws. -/
def envThrow : Env := ⟨fun _ => .error "Error: socket hang up", parseFix⟩

/-- A bare request with no headers set. -/
def baseReq : Request :=
  ⟨"/market/crypto/bitcoin", "GET", [], [], ⟨none, none, none⟩⟩

/-- A request carrying a parseable payment proof. -/
def proofReq : Request :=
  { baseReq with Headers := [("X-Payment-x402", .arr [.str "PROOF"])] }

/-- A request whose proof header holds malformed JSON. -/
def badProofReq : Request :=
  { baseReq with Headers := [("X-Payment-x402", .arr [.str "oops"])] }

/-- Like `proofReq` but with the header name all lower-case. -/
def lowerReq : Request :=
  { baseReq with Headers := [("x-payment-x402", .arr [.str "PROOF"])] }

/-- A post-phase request carrying the verification-phase metadata. -/
def settleReq : Request :=
  { baseReq with Headers :=
      [("X-Payment-Valid", .arr [.str "true"]),
       ("X-Payment-Tx", .arr [.str "SIG123"]),
       ("X-Payment-Network", .arr [.str "solana-devnet"]),
       ("X-Payment-Amount", .arr [.str "100"]),
       ("X-Payment-Token", .arr [.str "USDC"]),
       ("X-Payment-Recipient", .arr [.str "PAYADDR"])] }

/-- The transaction value the middleware derives from `proofObj`. -/
def txvFix : JVal := jsOr (jsOr (.str "SIG123") (proofObj.get "payload")) (.str "")

/-- The `/v1/verify` payload built from `cfgFix` and `proofObj`. -/
def payloadFix : JVal := verifyRequestPayload cfgFix txvFix

/-- The call log of the fixture verify call in environment `env`. -/
def verifyCallsIn (env : Env) : List FacCall :=
  (callFacilitator env "/v1/verify" payloadFix).2

/-- The verification outcome: the parts of `verifyPayment`'s result
that constitute the client-visible decision — response overrides,
attached metadata headers and facilitator calls (the echo of the
inbound headers themselves is not part of the outcome). -/
def verifyOutcome (r : Request × List FacCall) :
    Overrides × List (String × JVal) × List FacCall :=
  (r.1.ReturnOverrides, r.1.SetHeaders, r.2)

/-! ## Helper lemmas -/

/-- The settlement handler returns the request unchanged in every
branch: it never writes any response override or header. -/
theorem handleSettlement_fst (env : Env) (req : Request) :
    (handleSettlement env req).1 = req := by
  unfold handleSettlement
  dsimp only
  split <;> rfl

/-- `callFacilitator` always records exactly one outbound call, to the
endpoint it was given, with the serialized payload as body. -/
theorem callFacilitator_calls (env : Env) (ep : String) (p : JVal) :
    (callFacilitator env ep p).2 = [⟨ep, p.stringify⟩] := by
  unfold callFacilitator
  dsimp only
  split
  · rfl
  · split
    · rfl
    · split
      · rfl
      · split
        · rfl
        · split
          · rfl
          · split
            · rfl
            · split <;> rfl

/-- Membership form of `callFacilitator_calls`: any recorded call went
to the endpoint `callFacilitator` was invoked with. -/
theorem callFacilitator_mem_endpoint (env : Env) (ep : String) (p : JVal)
    (r : Except String FacResult) (cs : List FacCall)
    (h : callFacilitator env ep p = (r, cs)) :
    ∀ c ∈ cs, c.endpoint = ep := by
  intro c hc
  have h2 := callFacilitator_calls env ep p
  rw [h] at h2
  simp only at h2
  subst h2
  simp only [List.mem_singleton] at hc
  subst hc
  rfl

/-- Every call made by `settlePayment` goes to `/v1/settle`. -/
theorem settlePayment_calls_endpoint (env : Env) (t n r a k : JVal) :
    ∀ c ∈ (settlePayment env t n r a k).2, c.endpoint = "/v1/settle" := by
  intro c hc
  unfold settlePayment at hc
  split at hc
  · rename_i heq
    exact callFacilitator_mem_endpoint env _ _ _ _ heq c hc
  · rename_i heq
    exact callFacilitator_mem_endpoint env _ _ _ _ heq c hc
  · rename_i heq
    split at hc <;>
      exact callFacilitator_mem_endpoint env _ _ _ _ heq c hc

/-- Every call made by the settlement handler goes to `/v1/settle`. -/
theorem handleSettlement_calls_endpoint (env : Env) (req : Request) :
    ∀ c ∈ (handleSettlement env req).2, c.endpoint = "/v1/settle" := by
  intro c hc
  unfold handleSettlement at hc
  dsimp only at hc
  split at hc
  · simp at hc
  · exact settlePayment_calls_endpoint env _ _ _ _ _ c hc

/-- Every call made by the verification try-body goes to `/v1/verify`. -/
theorem verifyPaymentBody_calls_endpoint (env : Env) (req : Request) (cfg : JVal) :
    ∀ c ∈ (verifyPaymentBody env req cfg).2, c.endpoint = "/v1/verify" := by
  intro c hc
  unfold verifyPaymentBody at hc
  dsimp only at hc
  split at hc
  · simp at hc
  · split at hc
    · simp at hc
    · split at hc
      · simp at hc
      · split at hc
        · rename_i heq
          exact callFacilitator_mem_endpoint env _ _ _ _ heq c hc
        · rename_i heq
          exact callFacilitator_mem_endpoint env _ _ _ _ heq c hc
        · rename_i heq
          split at hc
          · exact callFacilitator_mem_endpoint env _ _ _ _ heq c hc
          · split at hc <;>
              exact callFacilitator_mem_endpoint env _ _ _ _ heq c hc

/-- Every call made by `verifyPayment` goes to `/v1/verify`. -/
theorem verifyPayment_calls_endpoint (env : Env) (req : Request) (cfg : JVal) :
    ∀ c ∈ (verifyPayment env req cfg).2, c.endpoint = "/v1/verify" := by
  intro c hc
  unfold verifyPayment at hc
  split at hc <;> rename_i heq
  all_goals
    have h2 : c ∈ (verifyPaymentBody env req cfg).2 := by rw [heq]; exact hc
  all_goals
    exact verifyPaymentBody_calls_endpoint env req cfg c h2

/-- Every call made by the verification handler goes to `/v1/verify`. -/
theorem handleVerification_calls_endpoint (env : Env) (req : Request) (session : Session) :
    ∀ c ∈ (handleVerification env req session).2, c.endpoint = "/v1/verify" := by
  intro c hc
  unfold handleVerification at hc
  dsimp only at hc
  split at hc <;> split at hc
  · simp at hc
  · split at hc
    · simp at hc
    · exact verifyPayment_calls_endpoint env req _ c hc
  · simp at hc
  · split at hc
    · simp at hc
    · exact verifyPayment_calls_endpoint env req _ c hc

/-- The verification outcome depends on the request only through the
resolved proof header, the URL, the prior `SetHeaders` and the prior
overrides. -/
theorem verifyPayment_outcome_congr (env : Env) (cfg : JVal) (r1 r2 : Request)
    (hh : proofHeaderOf r1 = proofHeaderOf r2)
    (hu : r1.URL = r2.URL)
    (hs : r1.SetHeaders = r2.SetHeaders)
    (ho : r1.ReturnOverrides = r2.ReturnOverrides) :
    verifyOutcome (verifyPayment env r1 cfg)
      = verifyOutcome (verifyPayment env r2 cfg) := by
  unfold verifyPayment verifyPaymentBody
  rw [hh]
  by_cases hg : (!(proofHeaderOf r2).truthy
      || (jsLength (proofHeaderOf r2)).seq (JVal.num 0)) = true
  · simp only [if_pos hg]
    simp [verifyOutcome, requestPayment, hu, hs, ho]
  · simp only [if_neg hg]
    rcases hp : jsParseVal env (rawPaymentOf (proofHeaderOf r2)) with e | proof
    · simp only [hp]
      simp [verifyOutcome, rejectPayment, hs, ho]
    · simp only [hp]
      rcases htx : proof.getE "transaction" with e | tx
      · simp only [htx]
        simp [verifyOutcome, internalErrorResponse, hs, ho]
      · simp only [htx]
        rcases hcf : callFacilitator env "/v1/verify"
            (verifyRequestPayload cfg (jsOr (jsOr tx (proof.get "payload")) (.str "")))
          with ⟨res, calls⟩
        try simp only [hcf]
        rcases res with e | fr
        · simp [verifyOutcome, internalErrorResponse, hs, ho]
        · rcases fr with body | msg
          · rcases hv : body.getE "isValid" with e | isv
            · try simp only [hv]
              simp [verifyOutcome, internalErrorResponse, hs, ho]
            · try simp only [hv]
              by_cases hb : (!isv.truthy) = true
              · simp only [if_pos hb]
                simp [verifyOutcome, rejectPayment, hs, ho]
              · simp only [if_neg hb]
                simp [verifyOutcome, setVerifiedHeaders, hs, ho]
          · simp [verifyOutcome, rejectPayment, hs, ho]

/-! ## Claims -/



/-- C1: for every settlement-phase invocation and every outcome of the
facilitator settle call (success, transport failure, protocol failure,
decode failure, or a thrown fault — all covered by quantifying over the
environment), `handleSettlement` leaves the client-visible response
state unchanged: it returns the request (and in particular
`ReturnOverrides.ResponseCode`/`ResponseError`/`ResponseHeaders`)
exactly as it received it. -/
theorem c1_settlement_preserves_response (env : Env) (req : Request) :
    (handleSettlement env req).1 = req
    ∧ (handleSettlement env req).1.ReturnOverrides = req.ReturnOverrides :=
  ⟨handleSettlement_fst env req, by rw [handleSettlement_fst]⟩

/-- C2: on a metered route with a parseable proof, when the facilitator
verify call fails in any classified way (no response, undecodable
response, missing or non-200 status, undecodable body — i.e.
`callFacilitator` returns `FacResult.err`), verification responds 402
payment-invalid (`rejectPayment`): never a 500 and never a pass-through
grant (fail-closed). -/
theorem c2_facilitator_failure_fail_closed
    (env : Env) (req : Request) (cfg proof tx : JVal) (msg : String)
    (calls : List FacCall)
    (ht : (proofHeaderOf req).truthy = true)
    (hl : (jsLength (proofHeaderOf req)).seq (.num 0) = false)
    (hp : jsParseVal env (rawPaymentOf (proofHeaderOf req)) = .ok proof)
    (htx : proof.getE "transaction" = .ok tx)
    (hc : callFacilitator env "/v1/verify"
        (verifyRequestPayload cfg (jsOr (jsOr tx (proof.get "payload")) (.str "")))
        = (.ok (.err msg), calls)) :
    verifyPayment env req cfg = (rejectPayment req (.str msg), calls)
    ∧ (verifyPayment env req cfg).1.ReturnOverrides.ResponseCode = some 402
    ∧ (verifyPayment env req cfg).1.ReturnOverrides.ResponseHeaders
        = some [("Content-Type", "application/json"), ("X-Payment-Status", "invalid")] := by
  have h : verifyPayment env req cfg = (rejectPayment req (.str msg), calls) := by
    unfold verifyPayment verifyPaymentBody
    simp [ht, hl, hp, htx, hc]
  exact ⟨h, by rw [h]; rfl, by rw [h]; rfl⟩

/-- Witness for C2: facilitator unreachable (empty response) on the
fixture request yields the 402 payment-invalid response. -/
theorem c2_witness :
    (verifyPayment envNoResp proofReq cfgFix).1.ReturnOverrides.ResponseCode = some 402
    ∧ (verifyPayment envNoResp proofReq cfgFix).1.ReturnOverrides.ResponseHeaders
        = some [("Content-Type", "application/json"), ("X-Payment-Status", "invalid")] :=
  (c2_facilitator_failure_fail_closed envNoResp proofReq cfgFix proofObj
    (.str "SIG123") "Failed to communicate with facilitator (no response)"
    (verifyCallsIn envNoResp)
    (by rfl) (by rfl) (by rfl) (by rfl) (by rfl)).2

/-- C3: on a metered route with the payment-proof header absent or
empty, the response is 402 whose body's
`paymentRequirements.maxAmountRequired` is exactly the configured
string, with `x402Version` 1 and `maxTimeoutSeconds` 60, and with the
`Content-Type`, `X-Payment-Required: x402` and
`X-Payment-Status: required` headers (the full header list also carries
`X-Payment-Protocol-Version`). -/
theorem c3_missing_proof_payment_required
    (env : Env) (req : Request) (cfg : JVal) (m : String)
    (hh : proofHeaderOf req = .undefined ∨ proofHeaderOf req = .str ""
          ∨ proofHeaderOf req = .arr [])
    (hm : cfg.get "maxAmountRequired" = .str m) (hm0 : m ≠ "") :
    verifyPayment env req cfg = (requestPayment req cfg, [])
    ∧ (requestPayment req cfg).ReturnOverrides.ResponseCode = some 402
    ∧ ((requestPaymentInfo req.URL cfg).get "paymentRequirements").get "maxAmountRequired"
        = .str m
    ∧ (requestPaymentInfo req.URL cfg).get "x402Version" = .num 1
    ∧ ((requestPaymentInfo req.URL cfg).get "paymentRequirements").get "maxTimeoutSeconds"
        = .num 60
    ∧ (requestPayment req cfg).ReturnOverrides.ResponseError
        = some (requestPaymentInfo req.URL cfg).stringify
    ∧ (requestPayment req cfg).ReturnOverrides.ResponseHeaders
        = some [("Content-Type", "application/json"), ("X-Payment-Required", "x402"),
                ("X-Payment-Status", "required"),
                ("X-Payment-Protocol-Version", MIDDLEWARE_VERSION)] := by
  refine ⟨?_, rfl, ?_, ?_, ?_, rfl, rfl⟩
  · rcases hh with h | h | h <;>
      (unfold verifyPayment verifyPaymentBody;
       simp [h, JVal.truthy, jsLength, JVal.seq])
  · simp only [requestPaymentInfo]
    rw [hm]
    simp [JVal.get, lookupField, jsOr, JVal.truthy, hm0]
  · simp [requestPaymentInfo, JVal.get, lookupField]
  · simp [requestPaymentInfo, JVal.get, lookupField, jsOr, JVal.truthy]

/-- Witness for C3: the bitcoin-route fixture with no proof header gets
the 402 with `maxAmountRequired` `"100"`. -/
theorem c3_witness :
    verifyPayment envNoResp baseReq cfgFix = (requestPayment baseReq cfgFix, [])
    ∧ ((requestPaymentInfo baseReq.URL cfgFix).get "paymentRequirements").get
        "maxAmountRequired" = .str "100" :=
  ⟨(c3_missing_proof_payment_required envNoResp baseReq cfgFix "100"
      (Or.inl rfl) rfl (by decide)).1,
   (c3_missing_proof_payment_required envNoResp baseReq cfgFix "100"
      (Or.inl rfl) rfl (by decide)).2.2.1⟩

/-- C4: on a metered route with a present but non-JSON-parseable proof
header, the response is 402 with `X-Payment-Status: invalid`, and the
facilitator is never called (the call log is empty), whatever the
facilitator oracle would do. -/
theorem c4_unparseable_proof_rejected_no_facilitator_call
    (env : Env) (req : Request) (cfg : JVal) (e : String)
    (ht : (proofHeaderOf req).truthy = true)
    (hl : (jsLength (proofHeaderOf req)).seq (.num 0) = false)
    (hp : jsParseVal env (rawPaymentOf (proofHeaderOf req)) = .error e) :
    verifyPayment env req cfg
      = (rejectPayment req (.str "Invalid JSON in X-Payment-x402 header"), [])
    ∧ (verifyPayment env req cfg).2 = []
    ∧ (verifyPayment env req cfg).1.ReturnOverrides.ResponseCode = some 402
    ∧ (verifyPayment env req cfg).1.ReturnOverrides.ResponseHeaders
        = some [("Content-Type", "application/json"), ("X-Payment-Status", "invalid")] := by
  have h : verifyPayment env req cfg
      = (rejectPayment req (.str "Invalid JSON in X-Payment-x402 header"), []) := by
    unfold verifyPayment verifyPaymentBody
    simp [ht, hl, hp]
  exact ⟨h, by rw [h], by rw [h]; rfl, by rw [h]; rfl⟩

/-- Witness for C4: the malformed-proof fixture is rejected with 402
invalid and an empty facilitator call log. -/
theorem c4_witness :
    (verifyPayment envNoResp badProofReq cfgFix).2 = []
    ∧ (verifyPayment envNoResp badProofReq cfgFix).1.ReturnOverrides.ResponseCode
        = some 402 :=
  ⟨(c4_unparseable_proof_rejected_no_facilitator_call envNoResp badProofReq cfgFix
      "SyntaxError: Unexpected token o in JSON at position 0"
      (by rfl) (by rfl) (by rfl)).2.1,
   (c4_unparseable_proof_rejected_no_facilitator_call envNoResp badProofReq cfgFix
      "SyntaxError: Unexpected token o in JSON at position 0"
      (by rfl) (by rfl) (by rfl)).2.2.1⟩

/-- C5 counterexample: on a concrete accepted payment the middleware
sets seven `SetHeaders` entries, including `X-Payment-Network` — so the
claim that it "sets exactly" the six headers `X-Payment-Valid`,
`X-Payment-Tx`, `X-Payment-Payer`, `X-Payment-Amount`,
`X-Payment-Token`, `X-Payment-Recipient` is false as stated: a seventh
carried header, not in that list, is also set. -/
theorem c5_counterexample_network_header_also_set :
    (verifyPayment envValid proofReq cfgFix).1.SetHeaders.map Prod.fst
      = ["X-Payment-Valid", "X-Payment-Network", "X-Payment-Tx", "X-Payment-Payer",
         "X-Payment-Amount", "X-Payment-Token", "X-Payment-Recipient"]
    ∧ "X-Payment-Network" ∉ ["X-Payment-Valid", "X-Payment-Tx", "X-Payment-Payer",
         "X-Payment-Amount", "X-Payment-Token", "X-Payment-Recipient"] :=
  ⟨by rfl, by decide⟩

/-- C5 (amended): for every facilitator verify response decoded with
`isValid` true, verification grants access (the response overrides are
untouched) and sets exactly seven carried-metadata headers:
`X-Payment-Valid` to the literal `"true"`, `X-Payment-Network` to the
requirement's network, `X-Payment-Tx` to the body's transaction field
when truthy or the `"unknown"` sentinel otherwise, `X-Payment-Payer` to
the body's payer field when truthy or the `"anonymous"` sentinel
otherwise, and `X-Payment-Amount`/`X-Payment-Token`/
`X-Payment-Recipient` to the requirement's
`maxAmountRequired`/`asset`/`payTo`. -/
theorem c5_valid_payment_sets_carried_metadata
    (env : Env) (req : Request) (cfg proof tx body : JVal)
    (calls : List FacCall)
    (ht : (proofHeaderOf req).truthy = true)
    (hl : (jsLength (proofHeaderOf req)).seq (.num 0) = false)
    (hp : jsParseVal env (rawPaymentOf (proofHeaderOf req)) = .ok proof)
    (htx : proof.getE "transaction" = .ok tx)
    (hc : callFacilitator env "/v1/verify"
        (verifyRequestPayload cfg (jsOr (jsOr tx (proof.get "payload")) (.str "")))
        = (.ok (.ok body), calls))
    (hv : body.getE "isValid" = .ok (.bool true))
    (hs : req.SetHeaders = []) :
    verifyPayment env req cfg = (setVerifiedHeaders req cfg body, calls)
    ∧ (verifyPayment env req cfg).1.SetHeaders
        = [("X-Payment-Valid", .str "true"),
           ("X-Payment-Network", cfg.get "network"),
           ("X-Payment-Tx", jsOr (body.get "transaction") (.str "unknown")),
           ("X-Payment-Payer", jsOr (body.get "payer") (.str "anonymous")),
           ("X-Payment-Amount", cfg.get "maxAmountRequired"),
           ("X-Payment-Token", cfg.get "asset"),
           ("X-Payment-Recipient", cfg.get "payTo")]
    ∧ (verifyPayment env req cfg).1.ReturnOverrides = req.ReturnOverrides := by
  have h : verifyPayment env req cfg = (setVerifiedHeaders req cfg body, calls) := by
    unfold verifyPayment verifyPaymentBody
    simp only [ht, hl, hp, htx, hc, hv, Bool.not_true, Bool.or_false]
    simp [JVal.truthy]
  refine ⟨h, ?_, by rw [h]; rfl⟩
  rw [h]
  simp [setVerifiedHeaders, hs, setAssoc]

/-- Witness for C5: the accepted-payment fixture sets the seven carried
headers with the facilitator's transaction and payer. -/
theorem c5_witness :
    (verifyPayment envValid proofReq cfgFix).1.SetHeaders
        = [("X-Payment-Valid", .str "true"),
           ("X-Payment-Network", cfgFix.get "network"),
           ("X-Payment-Tx", jsOr (facBodyValid.get "transaction") (.str "unknown")),
           ("X-Payment-Payer", jsOr (facBodyValid.get "payer") (.str "anonymous")),
           ("X-Payment-Amount", cfgFix.get "maxAmountRequired"),
           ("X-Payment-Token", cfgFix.get "asset"),
           ("X-Payment-Recipient", cfgFix.get "payTo")]
    ∧ (verifyPayment envValid proofReq cfgFix).1.ReturnOverrides
        = proofReq.ReturnOverrides :=
  ⟨(c5_valid_payment_sets_carried_metadata envValid proofReq cfgFix proofObj
      (.str "SIG123") facBodyValid (verifyCallsIn envValid)
      (by rfl) (by rfl) (by rfl) (by rfl) (by rfl) (by rfl) (by rfl)).2.1,
   (c5_valid_payment_sets_carried_metadata envValid proofReq cfgFix proofObj
      (.str "SIG123") facBodyValid (verifyCallsIn envValid)
      (by rfl) (by rfl) (by rfl) (by rfl) (by rfl) (by rfl) (by rfl)).2.2⟩

/-- C6: for every facilitator verify response decoded with `isValid`
false, the response is 402 payment-invalid whose message is the body's
`error` field, else its `message` field, else the fallback
`"Payment not valid"` (JavaScript `||` chaining), and `SetHeaders` is
left untouched, so no carried metadata reaches settlement. -/
theorem c6_facilitator_invalid_rejected_with_reason
    (env : Env) (req : Request) (cfg proof tx body : JVal)
    (calls : List FacCall)
    (ht : (proofHeaderOf req).truthy = true)
    (hl : (jsLength (proofHeaderOf req)).seq (.num 0) = false)
    (hp : jsParseVal env (rawPaymentOf (proofHeaderOf req)) = .ok proof)
    (htx : proof.getE "transaction" = .ok tx)
    (hc : callFacilitator env "/v1/verify"
        (verifyRequestPayload cfg (jsOr (jsOr tx (proof.get "payload")) (.str "")))
        = (.ok (.ok body), calls))
    (hv : body.getE "isValid" = .ok (.bool false)) :
    verifyPayment env req cfg
      = (rejectPayment req (jsOr (jsOr (body.get "error") (body.get "message"))
          (.str "Payment not valid")), calls)
    ∧ (verifyPayment env req cfg).1.ReturnOverrides.ResponseCode = some 402
    ∧ (verifyPayment env req cfg).1.ReturnOverrides.ResponseHeaders
        = some [("Content-Type", "application/json"), ("X-Payment-Status", "invalid")]
    ∧ (verifyPayment env req cfg).1.ReturnOverrides.ResponseError
        = some (JVal.stringify (.obj [("error", .str "Payment Invalid"),
            ("message", jsOr (jsOr (body.get "error") (body.get "message"))
              (.str "Payment not valid"))]))
    ∧ (verifyPayment env req cfg).1.SetHeaders = req.SetHeaders := by
  have h : verifyPayment env req cfg
      = (rejectPayment req (jsOr (jsOr (body.get "error") (body.get "message"))
          (.str "Payment not valid")), calls) := by
    unfold verifyPayment verifyPaymentBody
    simp only [ht, hl, hp, htx, hc, hv, Bool.not_true, Bool.or_false]
    simp [JVal.truthy]
  exact ⟨h, by rw [h]; rfl, by rw [h]; rfl, by rw [h]; rfl, by rw [h]; rfl⟩

/-- Witness for C6: the facilitator-rejected fixture (reason "expired")
gets 402 invalid and no carried metadata. -/
theorem c6_witness :
    (verifyPayment envInvalid proofReq cfgFix).1.ReturnOverrides.ResponseCode = some 402
    ∧ (verifyPayment envInvalid proofReq cfgFix).1.SetHeaders = proofReq.SetHeaders :=
  ⟨(c6_facilitator_invalid_rejected_with_reason envInvalid proofReq cfgFix proofObj
      (.str "SIG123") facBodyInvalid (verifyCallsIn envInvalid)
      (by rfl) (by rfl) (by rfl) (by rfl) (by rfl) (by rfl)).2.1,
   (c6_facilitator_invalid_rejected_with_reason envInvalid proofReq cfgFix proofObj
      (.str "SIG123") facBodyInvalid (verifyCallsIn envInvalid)
      (by rfl) (by rfl) (by rfl) (by rfl) (by rfl) (by rfl)).2.2.2.2⟩

/-- C8: any fault thrown inside the verification try-body (modelled at
the host-call and property-access boundaries) is caught and answered
with exactly HTTP 500, the literal generic body and
`Content-Type: application/json`; the response is a constant, so the
fault's own text never appears in it. -/
theorem c8_internal_fault_generic_500
    (env : Env) (req : Request) (cfg : JVal) (e : String) (calls : List FacCall)
    (h : verifyPaymentBody env req cfg = (.error e, calls)) :
    verifyPayment env req cfg = (internalErrorResponse req, calls)
    ∧ (verifyPayment env req cfg).1.ReturnOverrides.ResponseCode = some 500
    ∧ (verifyPayment env req cfg).1.ReturnOverrides.ResponseError
        = some "\x7b\"error\":\"Internal Server Error\",\"message\":\"Payment verification failed due to internal error\"\x7d"
    ∧ (verifyPayment env req cfg).1.ReturnOverrides.ResponseHeaders
        = some [("Content-Type", "application/json")] := by
  have h1 : verifyPayment env req cfg = (internalErrorResponse req, calls) := by
    unfold verifyPayment
    rw [h]
  exact ⟨h1, by rw [h1]; rfl, by rw [h1]; rfl, by rw [h1]; rfl⟩

/-- Witness for C8: a thrown transport fault on the fixture request
yields the generic 500. -/
theorem c8_witness :
    (verifyPayment envThrow proofReq cfgFix).1.ReturnOverrides.ResponseCode = some 500
    ∧ (verifyPayment envThrow proofReq cfgFix).1.ReturnOverrides.ResponseError
        = some "\x7b\"error\":\"Internal Server Error\",\"message\":\"Payment verification failed due to internal error\"\x7d" :=
  ⟨(c8_internal_fault_generic_500 envThrow proofReq cfgFix "Error: socket hang up"
      (verifyCallsIn envThrow) (by rfl)).2.1,
   (c8_internal_fault_generic_500 envThrow proofReq cfgFix "Error: socket hang up"
      (verifyCallsIn envThrow) (by rfl)).2.2.1⟩

/-- C7: `/v1/settle` is invoked only when the request's
`X-Payment-Valid` header is truthy with first element strictly equal to
`"true"` (the settlement-phase guard) and the carried `X-Payment-Tx`
value is truthy and not strictly equal to `"unknown"`.  Contrapositive
reading: with the validity flag absent/false, or the transaction
reference missing or `"unknown"`, no settle call occurs. -/
theorem c7_settle_called_only_with_carried_validity
    (env : Env) (req : Request) (session : Session)
    (h : ∃ c ∈ (NewProcessRequest env req session).2, c.endpoint = "/v1/settle") :
    (req.getHeader "X-Payment-Valid").truthy = true
    ∧ (jsIndex (req.getHeader "X-Payment-Valid") 0).seq (.str "true") = true
    ∧ (getHeaderValue (req.getHeader "X-Payment-Tx")).truthy = true
    ∧ (getHeaderValue (req.getHeader "X-Payment-Tx")).seq (.str "unknown") = false := by
  obtain ⟨c, hc, he⟩ := h
  unfold NewProcessRequest at hc
  dsimp only at hc
  split at hc
  · rename_i hcond
    simp only [Bool.and_eq_true] at hcond
    unfold handleSettlement at hc
    dsimp only at hc
    split at hc
    · simp at hc
    · rename_i hskip
      simp only [Bool.or_eq_true, not_or, Bool.not_eq_true] at hskip
      exact ⟨hcond.1, hcond.2, by simpa using hskip.1, hskip.2⟩
  · have h2 := handleVerification_calls_endpoint env req session c hc
    rw [h2] at he
    exact absurd he (by decide)

/-- Witness for C7: the settlement fixture does call `/v1/settle`, and
the theorem's guard conditions hold of it. -/
theorem c7_witness :
    (settleReq.getHeader "X-Payment-Valid").truthy = true
    ∧ (jsIndex (settleReq.getHeader "X-Payment-Valid") 0).seq (.str "true") = true
    ∧ (getHeaderValue (settleReq.getHeader "X-Payment-Tx")).truthy = true
    ∧ (getHeaderValue (settleReq.getHeader "X-Payment-Tx")).seq (.str "unknown") = false :=
  c7_settle_called_only_with_carried_validity envNoResp settleReq ⟨.undefined⟩
    (by decide)

/-- C10: on any inbound request whose `X-Payment-Valid` header is an
array with first element `"true"` — including one forged by the client
— the middleware takes the settlement path: the result is exactly
`handleSettlement`, the request (hence every response override: no 402,
no 500) is unchanged, and every facilitator call goes to `/v1/settle`
(so `/v1/verify` is never called), for every session/route
configuration and proof header. -/
theorem c10_presupplied_valid_header_skips_verification
    (env : Env) (req : Request) (session : Session) (rest : List JVal)
    (h : req.getHeader "X-Payment-Valid" = .arr (.str "true" :: rest)) :
    NewProcessRequest env req session = handleSettlement env req
    ∧ (NewProcessRequest env req session).1 = req
    ∧ ∀ c ∈ (NewProcessRequest env req session).2, c.endpoint = "/v1/settle" := by
  have h1 : NewProcessRequest env req session = handleSettlement env req := by
    unfold NewProcessRequest
    dsimp only
    rw [h]
    simp [JVal.truthy, jsIndex, JVal.seq]
  refine ⟨h1, ?_, ?_⟩
  · rw [h1, handleSettlement_fst]
  · rw [h1]
    exact handleSettlement_calls_endpoint env req

/-- Witness for C10: the settlement fixture request is dispatched to
settlement untouched, with only `/v1/settle` calls. -/
theorem c10_witness :
    NewProcessRequest envNoResp settleReq ⟨.undefined⟩ = handleSettlement envNoResp settleReq
    ∧ (NewProcessRequest envNoResp settleReq ⟨.undefined⟩).1 = settleReq
    ∧ ∀ c ∈ (NewProcessRequest envNoResp settleReq ⟨.undefined⟩).2,
        c.endpoint = "/v1/settle" :=
  c10_presupplied_valid_header_skips_verification envNoResp settleReq ⟨.undefined⟩ []
    (by rfl)

/-- C9 counterexample: two requests identical except for the casing of
the proof header's name (`X-Payment-x402` vs all-lower-case
`x-payment-x402`) produce different verification outcomes — the
middleware reads only the two exact spellings `X-Payment-x402` and
`X-Payment-X402`, so "any casing" is false as stated: the lower-case
variant is treated as "no payment header" (402 required) while the
canonical one reaches the facilitator (here, 402 invalid). -/
theorem c9_counterexample_casing_changes_outcome :
    (verifyPayment envNoResp proofReq cfgFix).1.ReturnOverrides.ResponseHeaders
      ≠ (verifyPayment envNoResp lowerReq cfgFix).1.ReturnOverrides.ResponseHeaders := by
  decide

/-- C9 (amended): the proof header is accepted under exactly the two
spellings the script looks up — `X-Payment-x402` and `X-Payment-X402`:
two requests identical except for which of these two casings carries
the proof value have the same verification outcome.  (Other casings are
not read by the middleware itself; see the counterexample.) -/
theorem c9_amended_two_casings_equivalent
    (env : Env) (cfg v : JVal) (url method : String)
    (sh : List (String × JVal)) (ro : Overrides) (rest : List (String × JVal))
    (h1 : lookupField rest "X-Payment-x402" = .undefined)
    (h2 : lookupField rest "X-Payment-X402" = .undefined) :
    verifyOutcome (verifyPayment env
        ⟨url, method, ("X-Payment-x402", v) :: rest, sh, ro⟩ cfg)
      = verifyOutcome (verifyPayment env
        ⟨url, method, ("X-Payment-X402", v) :: rest, sh, ro⟩ cfg) := by
  have hget1 : proofHeaderOf ⟨url, method, ("X-Payment-x402", v) :: rest, sh, ro⟩
      = jsOr v .undefined := by
    unfold proofHeaderOf Request.getHeader
    simp [lookupField, h2]
  have hget2 : proofHeaderOf ⟨url, method, ("X-Payment-X402", v) :: rest, sh, ro⟩
      = jsOr .undefined v := by
    unfold proofHeaderOf Request.getHeader
    simp [lookupField, h1]
  have hundef : JVal.undefined.truthy = false := rfl
  by_cases hv : v.truthy = true
  · exact verifyPayment_outcome_congr env cfg
      ⟨url, method, ("X-Payment-x402", v) :: rest, sh, ro⟩
      ⟨url, method, ("X-Payment-X402", v) :: rest, sh, ro⟩
      (by rw [hget1, hget2]; simp [jsOr, hv, hundef]) rfl rfl rfl
  · have hb : v.truthy = false := by
      revert hv; cases v.truthy <;> simp
    have e1 : verifyPayment env ⟨url, method, ("X-Payment-x402", v) :: rest, sh, ro⟩ cfg
        = (requestPayment ⟨url, method, ("X-Payment-x402", v) :: rest, sh, ro⟩ cfg, []) := by
      unfold verifyPayment verifyPaymentBody
      rw [hget1]
      simp [jsOr, hb, hundef]
    have e2 : verifyPayment env ⟨url, method, ("X-Payment-X402", v) :: rest, sh, ro⟩ cfg
        = (requestPayment ⟨url, method, ("X-Payment-X402", v) :: rest, sh, ro⟩ cfg, []) := by
      unfold verifyPayment verifyPaymentBody
      rw [hget2]
      simp [jsOr, hb, hundef]
    rw [e1, e2]
    rfl

/-- Witness for the amended C9: the fixture proof value under the two
accepted casings yields identical outcomes. -/
theorem c9_witness :
    verifyOutcome (verifyPayment envNoResp
        ⟨"/market/crypto/bitcoin", "GET", [("X-Payment-x402", .arr [.str "PROOF"])],
         [], ⟨none, none, none⟩⟩ cfgFix)
      = verifyOutcome (verifyPayment envNoResp
        ⟨"/market/crypto/bitcoin", "GET", [("X-Payment-X402", .arr [.str "PROOF"])],
         [], ⟨none, none, none⟩⟩ cfgFix) :=
  c9_amended_two_casings_equivalent envNoResp cfgFix (.arr [.str "PROOF"])
    "/market/crypto/bitcoin" "GET" [] ⟨none, none, none⟩ [] (by rfl) (by rfl)
